import Mathlib

/-!
Verification development for `intercept-fs` (`src/lib.rs`), an
LD_PRELOAD-style interception layer for filesystem calls.

Modelling choices, matching the source byte for byte where it manipulates
text:

* Rust `str`/`String` values are byte strings, so all text is modelled as
  `List Nat` of bytes.  ASCII literals are written with `ascii`.
* The original (dlsym-resolved) implementation is an oracle: its return
  value `ret` is an input of each shim, and the shim body runs strictly
  after that call (source macro `wrap!`, lines 32-43: `orig_fn` is invoked
  first, `$code` after, and `$ret_n` is returned).
* A shim invocation yields a `ShimResult`: the descriptor registry
  afterwards, the record line appended to the calling thread's log if any,
  and the value delivered back to the caller - `none` when the shim panics
  (as `c_str` does on non-UTF-8 paths) so that no value is delivered.
* The elapsed time reported by the thread's clock and the `errno` value
  read by `last_os_error` are ambient inputs, collected in `Env`.
-/

/-- ASCII bytes of a string literal.  Used only for ASCII text, where the
UTF-8 bytes coincide with the code points; Rust string literals in the
source are all ASCII. -/
def ascii (s : String) : List Nat := s.data.map Char.toNat

/-- Decimal digit bytes of a natural number, most significant digit first.
Fuel-indexed so that it is structurally recursive; fuel `n + 1` always
suffices for `n`. -/
def decimalAux : Nat → Nat → List Nat
  | 0, _ => []
  | fuel + 1, n =>
    if n < 10 then [48 + n] else decimalAux fuel (n / 10) ++ [48 + n % 10]

/-- Decimal digit bytes of `n`, as Rust `Display` prints an unsigned
integer (`decimal 0 = [48]`, the byte of `"0"`). -/
def decimal (n : Nat) : List Nat := decimalAux (n + 1) n

/-- Rust `Display` for a signed integer such as `c_int`: a leading `-`
byte for negative values, then the decimal digits of the magnitude. -/
def intDisplay (i : Int) : List Nat :=
  if i < 0 then 45 :: decimal i.natAbs else decimal i.natAbs

/-- Rust's zero-padding format `{:0w}`: pad the decimal form on the left
with `0` bytes to a MINIMUM width of `w` (longer values are printed in
full). -/
def padded (w : Nat) (n : Nat) : List Nat :=
  List.replicate (w - (decimal n).length) 48 ++ decimal n

/-- Byte-level UTF-8 validity as checked by Rust's `str::from_utf8` (and
hence `CStr::to_str`, source lines 88-90): rejects stray continuation
bytes, overlong encodings, surrogate code points and code points above
U+10FFFF. -/
def validUtf8 : List Nat → Bool
  | [] => true
  | b :: rest =>
    if b < 0x80 then validUtf8 rest
    else if b < 0xC2 then false
    else if b < 0xE0 then
      match rest with
      | c1 :: r => if 0x80 ≤ c1 ∧ c1 < 0xC0 then validUtf8 r else false
      | [] => false
    else if b < 0xF0 then
      match rest with
      | c1 :: c2 :: r =>
        if (if b = 0xE0 then 0xA0 else 0x80) ≤ c1 ∧
            c1 < (if b = 0xED then 0xA0 else 0xC0) ∧
            0x80 ≤ c2 ∧ c2 < 0xC0 then validUtf8 r else false
      | _ => false
    else if b < 0xF5 then
      match rest with
      | c1 :: c2 :: c3 :: r =>
        if (if b = 0xF0 then 0x90 else 0x80) ≤ c1 ∧
            c1 < (if b = 0xF4 then 0x90 else 0xC0) ∧
            0x80 ≤ c2 ∧ c2 < 0xC0 ∧ 0x80 ≤ c3 ∧ c3 < 0xC0 then validUtf8 r else false
      | _ => false
    else false

/-- Ambient state read by one shim invocation: the elapsed time the
calling thread's clock reports, split as `duration_since` does into whole
seconds and the sub-second nanoseconds (so `nanos < 10^9` in any real
execution), and the C `errno` value observed by
`io::Error::last_os_error().raw_os_error().unwrap_or(0)` (line 74). -/
structure Env where
  secs : Nat
  nanos : Nat
  errno : Int
deriving DecidableEq

/-- The fields of `libc::stat` that the program reads (lines 79-81).  The
values are whatever bytes the caller's buffer holds - the buffer contents
are an input of the shim, filled in or not. -/
structure StatBuf where
  st_mode : Nat
  st_uid : Nat
  st_gid : Nat
  st_size : Int
deriving DecidableEq

/-- Outcome of one shim invocation: the descriptor registry afterwards
(`RELEVANT_FILE_DESCRIPTORS`, lines 59-61, modelled as a `Finset Int`),
the record appended to the calling thread's log if any, and the value
delivered to the caller - `none` when the shim panics before returning. -/
structure ShimResult where
  registry : Finset Int
  record : Option (List Nat)
  retVal : Option Int
deriving DecidableEq

/-- Embeds `log` (lines 63-68): the content of the single line written by
`writeln!(log_file, "{:05}.{:08} {}", secs, subsec_nanos, info)` -
seconds zero-padded to minimum width 5, sub-second nanoseconds zero-padded
to minimum width 8, a space, then the payload.  (`writeln!` terminates the
line with a newline; we model the line's content.) -/
def log (env : Env) (info : List Nat) : List Nat :=
  padded 5 env.secs ++ ascii "." ++ padded 8 env.nanos ++ ascii " " ++ info

/-- Embeds `log_op` (lines 70-77): the literal byte-prefix scope test
`!path.starts_with("/tmp") || path[4..].starts_with("/intercepts")`
(slicing a `str` at byte index 4), then `log` of
`"{} {} {}, errno {}"` with the op, the path, the detail and `errno`.
Returns the emitted record, `none` when the source returns `false`
without logging. -/
def log_op (env : Env) (op path info : List Nat) : Option (List Nat) :=
  if !(ascii "/tmp").isPrefixOf path
      || (ascii "/intercepts").isPrefixOf (path.drop 4) then
    none
  else
    some (log env (op ++ ascii " " ++ path ++ ascii " " ++ info
      ++ ascii ", errno " ++ intDisplay env.errno))

/-- Derived form of the source's scope condition: `log_op` emits a record
exactly when this holds of the path bytes. -/
def in_scope (path : List Nat) : Bool :=
  (ascii "/tmp").isPrefixOf path
    && !(ascii "/intercepts").isPrefixOf (path.drop 4)

/-- Embeds `c_str` (lines 88-90): `CStr::from_ptr(ptr).to_str().unwrap()`
returns the same bytes viewed as `str` when they are valid UTF-8 and
panics otherwise (`none`). -/
def c_str (bytes : List Nat) : Option (List Nat) :=
  if validUtf8 bytes then some bytes else none

/-- Embeds `stat_info` (lines 79-81): it dereferences the caller's buffer
unconditionally, whatever `ret` is. -/
def stat_info (buf : StatBuf) (ret : Int) : List Nat :=
  ascii "-> mode " ++ decimal buf.st_mode ++ ascii " uid " ++ decimal buf.st_uid
    ++ ascii " gid " ++ decimal buf.st_gid ++ ascii " size "
    ++ intDisplay buf.st_size ++ ascii " -> " ++ intDisplay ret

/-- Embeds the `open` shim (lines 93-97).  `ret` is the original `open`'s
return value; the source inserts into the registry only when
`log_op(..) && ret > 0`. -/
def openShim (env : Env) (reg : Finset Int) (path : List Nat)
    (flags mode ret : Int) : ShimResult :=
  match c_str path with
  | none => ⟨reg, none, none⟩
  | some p =>
    let rcd := log_op env (ascii "open") p
      (ascii "(flags: " ++ intDisplay flags ++ ascii ", mode: "
        ++ intDisplay mode ++ ascii ") -> " ++ intDisplay ret)
    ⟨if rcd.isSome ∧ 0 < ret then insert ret reg else reg, rcd, some ret⟩

/-- Embeds the `close` shim (lines 99-105), faithfully keeping the
source's `RELEVANT_FILE_DESCRIPTORS.write().unwrap().remove(&ret)`: the
membership test and the removal are performed on `ret` (which equals `0`
inside the `ret == 0` branch), while the record prints `fd`. -/
def closeShim (env : Env) (reg : Finset Int) (fd ret : Int) : ShimResult :=
  if ret = 0 then
    if ret ∈ reg then
      ⟨reg.erase ret, some (log env (ascii "close " ++ intDisplay fd ++ ascii " -> 0")),
        some ret⟩
    else ⟨reg, none, some ret⟩
  else ⟨reg, none, some ret⟩

/-- Embeds the `mkdir` shim (lines 107-109). -/
def mkdir (env : Env) (reg : Finset Int) (path : List Nat) (mode ret : Int) :
    ShimResult :=
  match c_str path with
  | none => ⟨reg, none, none⟩
  | some p =>
    ⟨reg, log_op env (ascii "mkdir") p
      (ascii "(mode: " ++ intDisplay mode ++ ascii ") -> " ++ intDisplay ret), some ret⟩

/-- Embeds the `symlink` shim (lines 111-113).  Rust evaluates the
arguments of `log_op` left to right, so `c_str(linkpath)` runs (and can
panic) before the `format!` argument containing `c_str(target)`. -/
def symlink (env : Env) (reg : Finset Int) (target linkpath : List Nat)
    (ret : Int) : ShimResult :=
  match c_str linkpath with
  | none => ⟨reg, none, none⟩
  | some lp =>
    match c_str target with
    | none => ⟨reg, none, none⟩
    | some tg =>
      ⟨reg, log_op env (ascii "symlink") lp
        (ascii "-> " ++ tg ++ ascii " -> " ++ intDisplay ret), some ret⟩

/-- Embeds the `stat` shim (lines 119-121); `__xstat` (lines 115-117) and
the 64-bit width variants (lines 147-153) are identical modulo the struct
width and the op name. -/
def stat (env : Env) (reg : Finset Int) (path : List Nat) (buf : StatBuf)
    (ret : Int) : ShimResult :=
  match c_str path with
  | none => ⟨reg, none, none⟩
  | some p => ⟨reg, log_op env (ascii "stat") p (stat_info buf ret), some ret⟩

/-- Embeds the `lstat` shim (lines 127-129); `__lxstat` and the 64-bit
variants are identical modulo the struct width and the op name. -/
def lstat (env : Env) (reg : Finset Int) (path : List Nat) (buf : StatBuf)
    (ret : Int) : ShimResult :=
  match c_str path with
  | none => ⟨reg, none, none⟩
  | some p => ⟨reg, log_op env (ascii "lstat") p (stat_info buf ret), some ret⟩

/-- Embeds the `fstat` shim (lines 137-141): record only when `fd` is in
the registry, with no errno clause; the registry is not modified.
`__fxstat` and the 64-bit variants are identical modulo struct width. -/
def fstat (env : Env) (reg : Finset Int) (fd : Int) (buf : StatBuf)
    (ret : Int) : ShimResult :=
  if fd ∈ reg then
    ⟨reg, some (log env (ascii "fstat " ++ intDisplay fd ++ ascii " "
      ++ stat_info buf ret)), some ret⟩
  else ⟨reg, none, some ret⟩

/-- One intercepted call that can touch the descriptor registry, together
with the original call's return value. -/
inductive FsEvent
  | openEv (path : List Nat) (flags mode ret : Int)
  | closeEv (fd ret : Int)
deriving DecidableEq

/-- Registry after one intercepted call: the registry component of the
corresponding shim (the ambient `Env` does not influence it). -/
def stepRegistry (reg : Finset Int) : FsEvent → Finset Int
  | .openEv p flags mode ret => (openShim ⟨0, 0, 0⟩ reg p flags mode ret).registry
  | .closeEv fd ret => (closeShim ⟨0, 0, 0⟩ reg fd ret).registry

/-- Registry after a whole trace of intercepted calls, starting from the
empty set `RELEVANT_FILE_DESCRIPTORS` is initialised to (lines 59-61). -/
def runRegistry (tr : List FsEvent) : Finset Int := tr.foldl stepRegistry ∅

/-- Written from the spec's words, for comparison with the code (claim
C2): a descriptor is of interest iff it was returned by a successful
in-scope open-like call (`ret ≥ 0`) and has not since been passed to a
successful close call (`ret = 0`). -/
def specStep (reg : Finset Int) : FsEvent → Finset Int
  | .openEv p _ _ ret => if in_scope p ∧ 0 ≤ ret then insert ret reg else reg
  | .closeEv fd ret => if ret = 0 then reg.erase fd else reg

/-- Spec-side registry predicate for claim C2. -/
def specMarked (tr : List FsEvent) (d : Int) : Prop := d ∈ tr.foldl specStep ∅

instance (tr : List FsEvent) (d : Int) : Decidable (specMarked tr d) := by
  unfold specMarked; infer_instance

/-- Written from the spec's words, for comparison with the code (claim
C3): path `p` lies under the directory `root`. -/
def pathUnder (root p : List Nat) : Bool :=
  root == p || (root ++ ascii "/").isPrefixOf p

/-- Written from the spec's words (claim C3): `p` lies under the watched
root `/tmp` and not under the audit storage directory `/tmp/intercepts`. -/
def spec_in_scope (p : List Nat) : Bool :=
  pathUnder (ascii "/tmp") p && !(pathUnder (ascii "/tmp/intercepts") p)

/-- One `log` call in a process history: the calling thread's id and the
absolute instant at which that call reads `Instant::now()`. -/
structure LogEvent where
  thread : Nat
  time : Nat
deriving DecidableEq

/-- Reference instant a thread's records are measured from.  `BEGUN_AT`
is declared inside `thread_local!` (line 56), so its initialiser
`Instant::now()` runs at each thread's own first access - i.e. at that
thread's first `log` call: the basis is the instant of the thread's first
event in the history. -/
def threadBasis (events : List LogEvent) (t : Nat) : Option Nat :=
  ((events.filter fun e => e.thread == t).head?).map LogEvent.time

/-- Relative timestamp `Instant::now().duration_since(*time)` yields for
an event `e` of the history (in the same abstract time units). -/
def relStamp (events : List LogEvent) (e : LogEvent) : Nat :=
  e.time - (threadBasis events e.thread).getD e.time

theorem lt_ten_pow_succ (n : Nat) : n < 10 ^ (n + 1) :=
  lt_of_lt_of_le (Nat.lt_pow_self (by norm_num) n)
    (Nat.pow_le_pow_right (by norm_num) (Nat.le_succ n))

theorem decimalAux_length_le : ∀ (fuel k n : Nat), n < 10 ^ fuel → n < 10 ^ k →
    1 ≤ k → (decimalAux fuel n).length ≤ k := by
  intro fuel
  induction fuel with
  | zero =>
    intro k n hfuel _ _
    interval_cases n
    simp [decimalAux]
  | succ fuel ih =>
    intro k n hfuel hk hk1
    by_cases h : n < 10
    · simp [decimalAux, h]
      exact hk1
    · have h10 : 10 ≤ n := Nat.le_of_not_lt h
      have hk2 : 2 ≤ k := by
        by_contra hcon
        have : k = 1 := by omega
        subst this
        simp [pow_one] at hk
        omega
      have hdiv_fuel : n / 10 < 10 ^ fuel := by
        rw [Nat.div_lt_iff_lt_mul (by norm_num : (0 : Nat) < 10)]
        calc n < 10 ^ (fuel + 1) := hfuel
          _ = 10 ^ fuel * 10 := by rw [pow_succ]
      have hdiv_k : n / 10 < 10 ^ (k - 1) := by
        rw [Nat.div_lt_iff_lt_mul (by norm_num : (0 : Nat) < 10)]
        calc n < 10 ^ k := hk
          _ = 10 ^ (k - 1) * 10 := by
            rw [← pow_succ]
            congr 1
            omega
      have := ih (k - 1) (n / 10) hdiv_fuel hdiv_k (by omega)
      simp [decimalAux, h]
      omega

theorem decimal_length_le {n k : Nat} (hk : n < 10 ^ k) (hk1 : 1 ≤ k) :
    (decimal n).length ≤ k :=
  decimalAux_length_le (n + 1) k n (lt_ten_pow_succ n) hk hk1

theorem padded_length {w n : Nat} (hk : n < 10 ^ w) (h1 : 1 ≤ w) :
    (padded w n).length = w := by
  have := decimal_length_le hk h1
  simp [padded]
  omega

theorem decimalAux_mem_digit : ∀ (fuel n b : Nat), b ∈ decimalAux fuel n →
    48 ≤ b ∧ b ≤ 57 := by
  intro fuel
  induction fuel with
  | zero =>
    intro n b h
    simp [decimalAux] at h
  | succ fuel ih =>
    intro n b h
    by_cases hn : n < 10
    · simp [decimalAux, hn] at h
      omega
    · simp [decimalAux, hn] at h
      rcases h with h | h
      · exact ih _ _ h
      · have : n % 10 < 10 := Nat.mod_lt _ (by norm_num)
        omega

theorem comma_not_mem_decimal (n : Nat) : 44 ∉ decimal n := by
  intro h
  have := decimalAux_mem_digit _ _ _ h
  omega

theorem comma_not_mem_intDisplay (i : Int) : 44 ∉ intDisplay i := by
  intro h
  unfold intDisplay at h
  split at h
  · rcases List.mem_cons.mp h with h | h
    · omega
    · exact comma_not_mem_decimal _ h
  · exact comma_not_mem_decimal _ h

theorem comma_not_mem_padded (w n : Nat) : 44 ∉ padded w n := by
  intro h
  rcases List.mem_append.mp h with h | h
  · have := List.eq_of_mem_replicate h
    omega
  · exact comma_not_mem_decimal _ h

theorem comma_not_mem_stat_info (buf : StatBuf) (ret : Int) :
    44 ∉ stat_info buf ret := by
  intro h
  unfold stat_info at h
  simp only [List.append_assoc, List.mem_append] at h
  rcases h with h | h | h | h | h | h | h | h | h | h
  all_goals first
    | exact absurd h (by decide)
    | exact comma_not_mem_decimal _ h
    | exact comma_not_mem_intDisplay _ h

theorem log_op_isSome (env : Env) (op path info : List Nat) :
    (log_op env op path info).isSome = in_scope path := by
  unfold log_op in_scope
  cases h1 : (ascii "/tmp").isPrefixOf path <;>
    cases h2 : (ascii "/intercepts").isPrefixOf (path.drop 4) <;>
      simp [h1, h2]

theorem log_op_eq_of_in_scope {path : List Nat} (env : Env) (op info : List Nat)
    (h : in_scope path = true) :
    log_op env op path info =
      some (log env (op ++ ascii " " ++ path ++ ascii " " ++ info
        ++ ascii ", errno " ++ intDisplay env.errno)) := by
  unfold in_scope at h
  rw [Bool.and_eq_true] at h
  unfold log_op
  rw [h.1]
  rw [Bool.not_eq_true'] at h
  rw [h.2]
  simp

theorem log_op_eq_none_of_not_in_scope {path : List Nat} (env : Env)
    (op info : List Nat) (h : in_scope path = false) :
    log_op env op path info = none := by
  have := log_op_isSome env op path info
  rw [h] at this
  simpa [Option.isSome_iff_exists] using this

theorem c_str_of_valid {p : List Nat} (h : validUtf8 p = true) :
    c_str p = some p := by
  simp [c_str, h]

theorem c_str_of_invalid {p : List Nat} (h : validUtf8 p = false) :
    c_str p = none := by
  simp [c_str, h]

theorem comma_not_mem_fstat_record (env : Env) (fd : Int) (buf : StatBuf)
    (ret : Int) :
    44 ∉ log env (ascii "fstat " ++ intDisplay fd ++ ascii " "
      ++ stat_info buf ret) := by
  intro h
  unfold log at h
  simp only [List.append_assoc, List.mem_append] at h
  rcases h with h | h | h | h | h | h | h | h
  all_goals first
    | exact absurd h (by decide)
    | exact comma_not_mem_decimal _ h
    | exact comma_not_mem_intDisplay _ h
    | exact comma_not_mem_padded _ _ h
    | exact comma_not_mem_stat_info _ _ h

/-- C1: the close shim was claimed to unmark the caller's descriptor on a
successful close and to emit a record exactly when that descriptor was
marked.  The source instead calls `remove(&ret)` where `ret = 0` inside
the `ret == 0` branch (line 101), so at the failing input - descriptor 5
marked, `close(5)` returning 0 - the registry is left unchanged (5 stays
marked) and no record is emitted. -/
theorem c1_close_code_bug :
    closeShim ⟨0, 0, 0⟩ {5} 5 0 = ⟨{5}, none, some 0⟩ := by decide

/-- C2: the claimed registry invariant (marked iff opened in scope and
not since successfully closed) fails on the code: after
`open("/tmp/a") = 5` followed by a successful `close(5)`, descriptor 5 is
still in the registry, while the invariant - formalised from the spec's
words as `specMarked` - says it must not be. -/
theorem c2_registry_invariant_code_bug :
    5 ∈ runRegistry [FsEvent.openEv (ascii "/tmp/a") 0 0 5, FsEvent.closeEv 5 0] ∧
    ¬ specMarked [FsEvent.openEv (ascii "/tmp/a") 0 0 5, FsEvent.closeEv 5 0] 5 := by
  decide

/-- C3, counterexample: the path `/tmpx` does not lie under the watched
root `/tmp` (formalised from the spec's words as `spec_in_scope`), yet
the mkdir shim emits a record for it, because the source's scope filter
is the byte-prefix test `path.starts_with("/tmp")` (line 71). -/
theorem c3_scope_filter_counterexample :
    (mkdir ⟨0, 0, 0⟩ ∅ (ascii "/tmpx") 0 0).record.isSome = true ∧
    spec_in_scope (ascii "/tmpx") = false := by decide

/-- C3, amended: a path-carrying operation on a valid-UTF-8 path emits a
record iff the path bytes start with `/tmp` and the bytes from index 4 on
do not start with `/intercepts` - a byte-prefix test (`in_scope`), not a
directory-containment test. -/
theorem c3_scope_filter_amended (env : Env) (reg : Finset Int)
    (path target : List Nat) (flags mode ret : Int) (buf : StatBuf)
    (hv : validUtf8 path = true) (ht : validUtf8 target = true) :
    (openShim env reg path flags mode ret).record.isSome = in_scope path ∧
    (mkdir env reg path mode ret).record.isSome = in_scope path ∧
    (symlink env reg target path ret).record.isSome = in_scope path ∧
    (stat env reg path buf ret).record.isSome = in_scope path ∧
    (lstat env reg path buf ret).record.isSome = in_scope path := by
  refine ⟨?_, ?_, ?_, ?_, ?_⟩
  · simp [openShim, c_str_of_valid hv, log_op_isSome]
  · simp [mkdir, c_str_of_valid hv, log_op_isSome]
  · simp [symlink, c_str_of_valid hv, c_str_of_valid ht, log_op_isSome]
  · simp [stat, c_str_of_valid hv, log_op_isSome]
  · simp [lstat, c_str_of_valid hv, log_op_isSome]

theorem c3_scope_filter_amended_witness :
    validUtf8 (ascii "/tmp/a") = true ∧ validUtf8 (ascii "/tmp/t") = true ∧
    ((openShim ⟨0, 0, 0⟩ ∅ (ascii "/tmp/a") 0 0 5).record.isSome
        = in_scope (ascii "/tmp/a") ∧
      (mkdir ⟨0, 0, 0⟩ ∅ (ascii "/tmp/a") 0 0).record.isSome
        = in_scope (ascii "/tmp/a") ∧
      (symlink ⟨0, 0, 0⟩ ∅ (ascii "/tmp/t") (ascii "/tmp/a") 0).record.isSome
        = in_scope (ascii "/tmp/a") ∧
      (stat ⟨0, 0, 0⟩ ∅ (ascii "/tmp/a") ⟨0, 0, 0, 0⟩ 0).record.isSome
        = in_scope (ascii "/tmp/a") ∧
      (lstat ⟨0, 0, 0⟩ ∅ (ascii "/tmp/a") ⟨0, 0, 0, 0⟩ 0).record.isSome
        = in_scope (ascii "/tmp/a")) :=
  ⟨by decide, by decide,
    c3_scope_filter_amended ⟨0, 0, 0⟩ ∅ (ascii "/tmp/a") (ascii "/tmp/t")
      0 0 0 ⟨0, 0, 0, 0⟩ (by decide) (by decide)⟩

/-- C4, counterexample: `BEGUN_AT` is a `thread_local!` (line 56), so its
`Instant::now()` initialiser runs at each thread's own first use.  In a
history where thread 0 first logs at instant 3 and thread 1 first logs at
instant 7, the two threads' reference instants differ - there is no
single process-wide basis - and the two records carry the same relative
timestamp 0 despite happening at different instants, so cross-thread
timestamps are not mutually comparable. -/
theorem c4_process_clock_counterexample :
    threadBasis [⟨0, 3⟩, ⟨1, 7⟩] 0 = some 3 ∧
    threadBasis [⟨0, 3⟩, ⟨1, 7⟩] 1 = some 7 ∧
    threadBasis [⟨0, 3⟩, ⟨1, 7⟩] 0 ≠ threadBasis [⟨0, 3⟩, ⟨1, 7⟩] 1 ∧
    relStamp [⟨0, 3⟩, ⟨1, 7⟩] ⟨0, 3⟩ = relStamp [⟨0, 3⟩, ⟨1, 7⟩] ⟨1, 7⟩ := by
  decide

/-- C4, amended: the reference instant is per-thread, not process-wide:
each thread's basis is established once, at that thread's first `log`
call, and is unchanged by anything logged later (by any thread), so
timestamps are comparable within one thread only. -/
theorem c4_thread_clock_amended (events more : List LogEvent) (t : Nat)
    (h : ∃ e ∈ events, e.thread = t) :
    threadBasis (events ++ more) t = threadBasis events t := by
  obtain ⟨e, he, ht⟩ := h
  unfold threadBasis
  rw [List.filter_append]
  have hmem : e ∈ events.filter fun e => e.thread == t :=
    List.mem_filter.mpr ⟨he, by simp [ht]⟩
  cases hf : events.filter fun e => e.thread == t with
  | nil => rw [hf] at hmem; simp at hmem
  | cons a l => simp [hf]

theorem c4_thread_clock_amended_witness :
    (∃ e ∈ [(⟨2, 5⟩ : LogEvent)], e.thread = 2) ∧
    threadBasis ([(⟨2, 5⟩ : LogEvent)] ++ [⟨3, 9⟩]) 2 =
      threadBasis [(⟨2, 5⟩ : LogEvent)] 2 :=
  ⟨by decide, c4_thread_clock_amended [⟨2, 5⟩] [⟨3, 9⟩] 2 (by decide)⟩

/-- C5, counterexample: a successful in-scope `open` returning descriptor
0 is logged but NOT inserted into the registry, because the source's
condition is `ret > 0` (line 94); the claim required descriptor 0 to be
inserted as well. -/
theorem c5_open_mark_counterexample :
    (openShim ⟨0, 0, 0⟩ ∅ (ascii "/tmp/a") 0 0 0).record.isSome = true ∧
    (openShim ⟨0, 0, 0⟩ ∅ (ascii "/tmp/a") 0 0 0).registry = ∅ := by decide

/-- C5, amended: for an in-scope valid-UTF-8 path the open shim always
emits a record, whatever the original call returned; the returned
descriptor is inserted into the registry exactly when it is strictly
positive (so a successful open returning descriptor 0 is recorded but not
marked). -/
theorem c5_open_record_and_mark_amended (env : Env) (reg : Finset Int)
    (path : List Nat) (flags mode ret : Int)
    (hv : validUtf8 path = true) (hsc : in_scope path = true) :
    (openShim env reg path flags mode ret).record.isSome = true ∧
    (openShim env reg path flags mode ret).registry =
      (if 0 < ret then insert ret reg else reg) := by
  unfold openShim
  rw [c_str_of_valid hv]
  constructor
  · simp [log_op_isSome, hsc]
  · by_cases hr : (0 : Int) < ret <;> simp [log_op_isSome, hsc, hr]

theorem c5_open_record_and_mark_amended_witness :
    validUtf8 (ascii "/tmp/a") = true ∧ in_scope (ascii "/tmp/a") = true ∧
    ((openShim ⟨0, 0, 0⟩ ∅ (ascii "/tmp/a") 0 0 5).record.isSome = true ∧
      (openShim ⟨0, 0, 0⟩ ∅ (ascii "/tmp/a") 0 0 5).registry =
        (if (0 : Int) < 5 then insert 5 ∅ else ∅)) :=
  ⟨by decide, by decide,
    c5_open_record_and_mark_amended ⟨0, 0, 0⟩ ∅ (ascii "/tmp/a") 0 0 5
      (by decide) (by decide)⟩

/-- C6, counterexample: transparency does not hold universally: on a
non-UTF-8 path argument (byte 0xFF) the open shim panics in `c_str`
after the original call, so the original's return value (here 7) is
never delivered to the caller. -/
theorem c6_transparency_counterexample :
    validUtf8 [255] = false ∧
    (openShim ⟨0, 0, 0⟩ ∅ [255] 0 0 7).retVal = none := by decide

/-- C6, amended: every shim returns the original implementation's value
unmodified whenever it completes without panicking - unconditionally for
the descriptor-only shims (`close`, `fstat`), and for the path-taking
shims whenever their path arguments are valid UTF-8. -/
theorem c6_transparent_forwarding_amended (env : Env) (reg : Finset Int)
    (path target linkpath : List Nat) (flags mode fd ret : Int) (buf : StatBuf)
    (hp : validUtf8 path = true) (ht : validUtf8 target = true)
    (hl : validUtf8 linkpath = true) :
    (openShim env reg path flags mode ret).retVal = some ret ∧
    (closeShim env reg fd ret).retVal = some ret ∧
    (mkdir env reg path mode ret).retVal = some ret ∧
    (symlink env reg target linkpath ret).retVal = some ret ∧
    (stat env reg path buf ret).retVal = some ret ∧
    (lstat env reg path buf ret).retVal = some ret ∧
    (fstat env reg fd buf ret).retVal = some ret := by
  refine ⟨?_, ?_, ?_, ?_, ?_, ?_, ?_⟩
  · simp [openShim, c_str_of_valid hp]
  · unfold closeShim
    split
    · split <;> rfl
    · rfl
  · simp [mkdir, c_str_of_valid hp]
  · simp [symlink, c_str_of_valid ht, c_str_of_valid hl]
  · simp [stat, c_str_of_valid hp]
  · simp [lstat, c_str_of_valid hp]
  · unfold fstat
    split <;> rfl

theorem c6_transparent_forwarding_amended_witness :
    validUtf8 (ascii "/tmp/a") = true ∧ validUtf8 (ascii "/tmp/t") = true ∧
    validUtf8 (ascii "/tmp/l") = true ∧
    ((openShim ⟨0, 0, 0⟩ ∅ (ascii "/tmp/a") 0 0 7).retVal = some 7 ∧
      (closeShim ⟨0, 0, 0⟩ ∅ 3 7).retVal = some 7 ∧
      (mkdir ⟨0, 0, 0⟩ ∅ (ascii "/tmp/a") 0 7).retVal = some 7 ∧
      (symlink ⟨0, 0, 0⟩ ∅ (ascii "/tmp/t") (ascii "/tmp/l") 7).retVal = some 7 ∧
      (stat ⟨0, 0, 0⟩ ∅ (ascii "/tmp/a") ⟨0, 0, 0, 0⟩ 7).retVal = some 7 ∧
      (lstat ⟨0, 0, 0⟩ ∅ (ascii "/tmp/a") ⟨0, 0, 0, 0⟩ 7).retVal = some 7 ∧
      (fstat ⟨0, 0, 0⟩ ∅ 3 ⟨0, 0, 0, 0⟩ 7).retVal = some 7) :=
  ⟨by decide, by decide, by decide,
    c6_transparent_forwarding_amended ⟨0, 0, 0⟩ ∅ (ascii "/tmp/a")
      (ascii "/tmp/t") (ascii "/tmp/l") 0 0 3 7 ⟨0, 0, 0, 0⟩
      (by decide) (by decide) (by decide)⟩

/-- C7, counterexample: the widths in the claimed `SSSSS.NNNNNNNN` format
are only minimums.  `subsec_nanos` can legitimately return 10^8, which
`{:08}` prints with 9 digits, so in the resulting mkdir record the byte
at index 14 - where the claimed fixed-width format places the space after
the timestamp - is still a digit, and the space sits at index 15. -/
theorem c7_record_format_counterexample :
    (padded 8 100000000).length = 9 ∧
    ((mkdir ⟨0, 100000000, 0⟩ ∅ (ascii "/tmp/a") 0 0).record.getD [])[14]? =
      some 48 ∧
    ((mkdir ⟨0, 100000000, 0⟩ ∅ (ascii "/tmp/a") 0 0).record.getD [])[15]? =
      some 32 := by decide

/-- C7, amended: every record is `<secs>.<nanos> <payload>` where the
seconds are zero-padded to a minimum width of 5 and the nanoseconds to a
minimum width of 8 - the widths are exact whenever `secs < 10^5` and
`nanos < 10^8`; every path-keyed record carries a trailing
`, errno <n>` clause, and a stat-by-descriptor (fstat) record never
contains one (its bytes contain no comma at all, while the errno clause
starts with one). -/
theorem c7_record_format_amended (env : Env) (reg : Finset Int)
    (op path info : List Nat) (fd ret : Int) (buf : StatBuf)
    (hs : env.secs < 10 ^ 5) (hn : env.nanos < 10 ^ 8)
    (hsc : in_scope path = true) :
    (padded 5 env.secs).length = 5 ∧
    (padded 8 env.nanos).length = 8 ∧
    log env info = padded 5 env.secs ++ ascii "." ++ padded 8 env.nanos
      ++ ascii " " ++ info ∧
    log_op env op path info =
      some (log env (op ++ ascii " " ++ path ++ ascii " " ++ info
        ++ ascii ", errno " ++ intDisplay env.errno)) ∧
    44 ∈ ascii ", errno " ∧
    44 ∉ (fstat env reg fd buf ret).record.getD [] := by
  refine ⟨padded_length hs (by norm_num), padded_length hn (by norm_num), rfl,
    log_op_eq_of_in_scope env op info hsc, by decide, ?_⟩
  unfold fstat
  by_cases hfd : fd ∈ reg
  · simpa [hfd] using comma_not_mem_fstat_record env fd buf ret
  · simp [hfd]

theorem c7_record_format_amended_witness :
    (3 : Nat) < 10 ^ 5 ∧ (5 : Nat) < 10 ^ 8 ∧ in_scope (ascii "/tmp/a") = true ∧
    ((padded 5 (3 : Nat)).length = 5 ∧
      (padded 8 (5 : Nat)).length = 8 ∧
      log ⟨3, 5, 2⟩ (ascii "x") = padded 5 3 ++ ascii "." ++ padded 8 5
        ++ ascii " " ++ ascii "x" ∧
      log_op ⟨3, 5, 2⟩ (ascii "mkdir") (ascii "/tmp/a") (ascii "x") =
        some (log ⟨3, 5, 2⟩ (ascii "mkdir" ++ ascii " " ++ ascii "/tmp/a"
          ++ ascii " " ++ ascii "x" ++ ascii ", errno "
          ++ intDisplay (2 : Int))) ∧
      44 ∈ ascii ", errno " ∧
      44 ∉ (fstat ⟨3, 5, 2⟩ {9} 9 ⟨1, 2, 3, 4⟩ 0).record.getD []) :=
  ⟨by decide, by decide, by decide,
    c7_record_format_amended ⟨3, 5, 2⟩ {9} (ascii "mkdir") (ascii "/tmp/a")
      (ascii "x") 9 0 ⟨1, 2, 3, 4⟩ (by decide) (by decide) (by decide)⟩

/-- C8: registry updates are atomic with respect to failure: an open
whose path is out of scope or whose original call failed (negative
return) leaves the registry untouched, and a close whose original call
failed (nonzero return) leaves it untouched.  This also covers the panic
path of a non-UTF-8 open, where the registry is likewise unchanged. -/
theorem c8_registry_atomicity (env : Env) (reg : Finset Int) (path : List Nat)
    (flags mode ret fd cret : Int)
    (hopen : in_scope path = false ∨ ret < 0) (hclose : cret ≠ 0) :
    (openShim env reg path flags mode ret).registry = reg ∧
    (closeShim env reg fd cret).registry = reg := by
  constructor
  · unfold openShim
    by_cases hv : validUtf8 path = true
    · rw [c_str_of_valid hv]
      rcases hopen with h | h
      · simp [log_op_isSome, h]
      · have hret : ¬ (0 : Int) < ret := by omega
        simp [hret]
    · rw [c_str_of_invalid (Bool.not_eq_true _ ▸ hv)]
  · simp [closeShim, hclose]

theorem c8_registry_atomicity_witness :
    (in_scope (ascii "/etc/passwd") = false ∨ (-1 : Int) < 0) ∧
    (-1 : Int) ≠ 0 ∧
    ((openShim ⟨0, 0, 0⟩ {5} (ascii "/etc/passwd") 0 0 (-1)).registry = {5} ∧
      (closeShim ⟨0, 0, 0⟩ {5} 3 (-1)).registry = {5}) :=
  ⟨Or.inl (by decide), by decide,
    c8_registry_atomicity ⟨0, 0, 0⟩ {5} (ascii "/etc/passwd") 0 0 (-1) 3 (-1)
      (Or.inl (by decide)) (by decide)⟩

/-- C9: every path-taking shim whose path bytes are not valid UTF-8
panics in `c_str` (the `to_str().unwrap()`, lines 88-90) after the
original call, so no return value is delivered to the caller
(`retVal = none`); for `symlink` the panic already happens on an invalid
link path, whatever the target is. -/
theorem c9_nonutf8_panic (env : Env) (reg : Finset Int) (path target : List Nat)
    (flags mode ret : Int) (buf : StatBuf) (h : validUtf8 path = false) :
    (openShim env reg path flags mode ret).retVal = none ∧
    (mkdir env reg path mode ret).retVal = none ∧
    (symlink env reg target path ret).retVal = none ∧
    (stat env reg path buf ret).retVal = none ∧
    (lstat env reg path buf ret).retVal = none := by
  refine ⟨?_, ?_, ?_, ?_, ?_⟩ <;>
    simp [openShim, mkdir, symlink, stat, lstat, c_str_of_invalid h]

theorem c9_nonutf8_panic_witness :
    validUtf8 [255] = false ∧
    ((openShim ⟨0, 0, 0⟩ ∅ [255] 0 0 7).retVal = none ∧
      (mkdir ⟨0, 0, 0⟩ ∅ [255] 0 7).retVal = none ∧
      (symlink ⟨0, 0, 0⟩ ∅ (ascii "/tmp/t") [255] 7).retVal = none ∧
      (stat ⟨0, 0, 0⟩ ∅ [255] ⟨0, 0, 0, 0⟩ 7).retVal = none ∧
      (lstat ⟨0, 0, 0⟩ ∅ [255] ⟨0, 0, 0, 0⟩ 7).retVal = none) :=
  ⟨by decide,
    c9_nonutf8_panic ⟨0, 0, 0⟩ ∅ [255] (ascii "/tmp/t") 0 0 7 ⟨0, 0, 0, 0⟩
      (by decide)⟩

/-- C10: the stat/lstat/fstat shims call `stat_info` unconditionally, so
a record emitted for a failed original call (`ret = -1`, buffer never
filled in) still dereferences the caller's buffer and prints whatever
`mode`, `uid`, `gid` and `size` values it happened to hold - the record
is the structural formatting of the arbitrary `buf` argument. -/
theorem c10_stat_reads_buffer_unconditionally (env : Env) (reg : Finset Int)
    (path : List Nat) (buf : StatBuf) (fd : Int)
    (hv : validUtf8 path = true) (hsc : in_scope path = true) (hfd : fd ∈ reg) :
    (stat env reg path buf (-1)).record =
      some (log env (ascii "stat" ++ ascii " " ++ path ++ ascii " "
        ++ stat_info buf (-1) ++ ascii ", errno " ++ intDisplay env.errno)) ∧
    (lstat env reg path buf (-1)).record =
      some (log env (ascii "lstat" ++ ascii " " ++ path ++ ascii " "
        ++ stat_info buf (-1) ++ ascii ", errno " ++ intDisplay env.errno)) ∧
    (fstat env reg fd buf (-1)).record =
      some (log env (ascii "fstat " ++ intDisplay fd ++ ascii " "
        ++ stat_info buf (-1))) := by
  refine ⟨?_, ?_, ?_⟩
  · simp [stat, c_str_of_valid hv, log_op_eq_of_in_scope env _ _ hsc]
  · simp [lstat, c_str_of_valid hv, log_op_eq_of_in_scope env _ _ hsc]
  · simp [fstat, hfd]

theorem c10_stat_reads_buffer_unconditionally_witness :
    validUtf8 (ascii "/tmp/a") = true ∧ in_scope (ascii "/tmp/a") = true ∧
    (7 : Int) ∈ ({7} : Finset Int) ∧
    ((stat ⟨1, 2, 3⟩ {7} (ascii "/tmp/a") ⟨33188, 1000, 1000, 42⟩ (-1)).record =
      some (log ⟨1, 2, 3⟩ (ascii "stat" ++ ascii " " ++ ascii "/tmp/a"
        ++ ascii " " ++ stat_info ⟨33188, 1000, 1000, 42⟩ (-1)
        ++ ascii ", errno " ++ intDisplay (3 : Int))) ∧
    (lstat ⟨1, 2, 3⟩ {7} (ascii "/tmp/a") ⟨33188, 1000, 1000, 42⟩ (-1)).record =
      some (log ⟨1, 2, 3⟩ (ascii "lstat" ++ ascii " " ++ ascii "/tmp/a"
        ++ ascii " " ++ stat_info ⟨33188, 1000, 1000, 42⟩ (-1)
        ++ ascii ", errno " ++ intDisplay (3 : Int))) ∧
    (fstat ⟨1, 2, 3⟩ {7} 7 ⟨33188, 1000, 1000, 42⟩ (-1)).record =
      some (log ⟨1, 2, 3⟩ (ascii "fstat " ++ intDisplay (7 : Int) ++ ascii " "
        ++ stat_info ⟨33188, 1000, 1000, 42⟩ (-1)))) :=
  ⟨by decide, by decide, by decide,
    c10_stat_reads_buffer_unconditionally ⟨1, 2, 3⟩ {7} (ascii "/tmp/a")
      ⟨33188, 1000, 1000, 42⟩ 7 (by decide) (by decide) (by decide)⟩
